import Mathlib

/-!
Shallow embedding of `discord_pokemon_stock_bot.py`: the status-extraction
pipeline, change detection, the sweep-loop per-item step, alert delivery,
and persistence (`load_state` / `save_state`), together with theorems that
settle the specification claims about them.

External libraries (aiohttp, BeautifulSoup, `re`, `json`, discord) are
abstracted by their observable outcomes: a fetched page is represented by
the data the source actually reads from it, and the network/Discord calls
by their results.
-/

namespace StockBot

/-- JSON values, the result type of Python's `json.loads`.  Numbers are
modelled as exact rationals (the persistence layer only copies them, it
performs no float arithmetic).  Object keys are unique, as produced by
`json.loads`. -/
inductive JVal where
  | null
  | bool (b : Bool)
  | num (q : ℚ)
  | str (s : String)
  | arr (xs : List JVal)
  | obj (fields : List (String × JVal))

/-- `matchesAt pat hay`: `pat` occurs at the very start of `hay`. -/
def matchesAt : List Char → List Char → Bool
  | [], _ => true
  | _ :: _, [] => false
  | p :: ps, h :: hs => (p == h) && matchesAt ps hs

/-- `hasSub pat hay`: `pat` occurs contiguously somewhere in `hay`. -/
def hasSub (pat : List Char) : List Char → Bool
  | [] => matchesAt pat []
  | h :: hs => matchesAt pat (h :: hs) || hasSub pat hs

/-- Python's substring test `pat in s`. -/
def strContains (s pat : String) : Bool := hasSub pat.toList s.toList

/-- Python's `str.lower()` on the ASCII tokens and phrases the source
handles (character-wise case folding). -/
def pyLower (s : String) : String := ⟨s.toList.map Char.toLower⟩

/-- `IN_STOCK_KEYWORDS` (source lines 60-63). -/
def IN_STOCK_KEYWORDS : List String :=
  ["op voorraad", "op=voorraad", "online op voorraad", "direct leverbaar", "morgen in huis",
   "in stock", "available"]

/-- `OUT_STOCK_KEYWORDS` (source lines 64-67). -/
def OUT_STOCK_KEYWORDS : List String :=
  ["niet op voorraad", "uitverkocht", "tijdelijk uitverkocht", "niet beschikbaar", "niet leverbaar",
   "currently unavailable", "out of stock"]

/-- `PREORDER_KEYWORDS` (source line 68). -/
def PREORDER_KEYWORDS : List String := ["pre-order", "preorder", "pre-orderen", "verwacht"]

/-- The inner `any_kw` of `keyword_status_fallback`: some keyword occurs in `body`. -/
def any_kw (body : String) (words : List String) : Bool :=
  words.any (fun w => strContains body w)

/-- `keyword_status_fallback` (source lines 206-216).  Its input is the
visible text of the page (`BeautifulSoup(html).get_text(" ")`), which the
function lowercases before testing the three keyword sets in order. -/
def keyword_status_fallback (visibleText : String) : String :=
  let body := pyLower visibleText
  if any_kw body IN_STOCK_KEYWORDS then "InStock"
  else if any_kw body OUT_STOCK_KEYWORDS then "OutOfStock"
  else if any_kw body PREORDER_KEYWORDS then "PreOrder"
  else "Unknown"

/-- The availability-token normalization used at both source sites
(lines 160-166 and 193-199): lowercase the raw token and test the three
substrings in order; `none` on fall-through.  Site one (the regex fast
path) falls through on `none`; site two (the JSON path) replaces `none`
by `"Unknown"` (line 200). -/
def normalize_avail (raw : String) : Option String :=
  let r := pyLower raw
  if strContains r "instock" then some "InStock"
  else if strContains r "outofstock" then some "OutOfStock"
  else if strContains r "preorder" || strContains r "pre-order" then some "PreOrder"
  else none

mutual

/-- The inner `extract` of `parse_jsonld_availability` (source lines 172-189):
on a dict, read `name`, then `offers.availability` when `offers` is a dict,
else the first dict element of an `offers` list carrying a string
`availability`; on a list, recurse into the elements and return the first
hit; dict values other than `offers` are not recursed into. -/
def extract : JVal → Option (String × Option String)
  | .obj fields =>
    let nm : Option String := match fields.lookup "name" with
      | some (.str s) => some s
      | _ => none
    (match fields.lookup "offers" with
     | some (.obj ofs) =>
       (match ofs.lookup "availability" with
        | some (.str avail) => some (avail, nm)
        | _ => none)
     | some (.arr os) => extractOffersList os nm
     | _ => none)
  | .arr els => extractSearchList els
  | _ => none

/-- The `for o in offers` loop of `extract` (source lines 180-183). -/
def extractOffersList : List JVal → Option String → Option (String × Option String)
  | [], _ => none
  | .obj ofs :: rest, nm =>
    (match ofs.lookup "availability" with
     | some (.str avail) => some (avail, nm)
     | _ => extractOffersList rest nm)
  | _ :: rest, nm => extractOffersList rest nm

/-- The `for el in d` loop of `extract` (source lines 184-188). -/
def extractSearchList : List JVal → Option (String × Option String)
  | [] => none
  | el :: rest =>
    (match extract el with
     | some res => some res
     | none => extractSearchList rest)

end

/-- One `<script type="application/ld+json">` block, represented by the
outcomes of the library calls the source applies to its (non-empty) text
content: the capture group of `AVAIL_PATTERN.search`, the capture group of
`NAME_PATTERN.search`, and the `json.loads` result (`none` when parsing
raised).  Blocks whose content is empty are skipped by the source
(line 153) and are not represented. -/
structure LdBlock where
  availMatch : Option String
  nameMatch : Option String
  parsed : Option JVal

/-- The body of one iteration of the block loop in
`parse_jsonld_availability` (source lines 149-200): `some (status, name)`
when this block returns an answer, `none` when the loop continues to the
next block. -/
def procBlock (b : LdBlock) : Option (String × Option String) :=
  let fast : Option (String × Option String) :=
    match b.availMatch with
    | some raw => (normalize_avail raw).map (fun st => (st, b.nameMatch))
    | none => none
  match fast with
  | some r => some r
  | none =>
    match b.parsed with
    | none => none
    | some data =>
      match extract data with
      | none => none
      | some (availRaw, nm) => some ((normalize_avail availRaw).getD "Unknown", nm)

/-- `parse_jsonld_availability` (source lines 142-203) over the list of
JSON-LD blocks of the page: first block returning an answer wins; if no
block does, the result is `(none, none)`. -/
def parse_jsonld_availability : List LdBlock → Option String × Option String
  | [] => (none, none)
  | b :: rest =>
    match procBlock b with
    | some (st, nm) => (some st, nm)
    | none => parse_jsonld_availability rest

/-- A fetched page, represented by the data the source reads from it:
its JSON-LD blocks, its visible text (`get_text(" ")`), and the result of
`extract_title` (the stripped `<title>` text, `none` when absent or
empty). -/
structure Page where
  blocks : List LdBlock
  visibleText : String
  titleTag : Option String

/-- `extract_title` (source lines 219-226). -/
def extract_title (pg : Page) : Option String := pg.titleTag

/-- Python's `a or b` on optional strings (`""` and `None` are falsy). -/
def pyOrStr (a b : Option String) : Option String :=
  match a with
  | some s => if s = "" then b else some s
  | none => b

/-- `check_url` (source lines 229-241).  The fetch outcome is passed in:
`none` models `fetch_html` returning `None` (network error, timeout or
non-200) or an empty body (`if not html`). -/
def check_url (fetched : Option Page) : String × Option String :=
  match fetched with
  | none => ("Unknown", none)
  | some pg =>
    let sn := parse_jsonld_availability pg.blocks
    let status :=
      match sn.1 with
      | none => keyword_status_fallback pg.visibleText
      | some s => if s = "Unknown" then keyword_status_fallback pg.visibleText else s
    let title := pyOrStr sn.2 (extract_title pg)
    (status, title)

/-- `DEFAULT_INTERVAL_SEC = 5 * 60` (source line 54). -/
def DEFAULT_INTERVAL_SEC : Int := 5 * 60

/-- `MIN_INTERVAL_SEC = 60` (source line 55). -/
def MIN_INTERVAL_SEC : Int := 60

/-- The `TrackedItem` dataclass (source lines 74-80).  `last_checked` is an
epoch-seconds float, modelled as an exact rational (it is only stored and
copied, never computed with). -/
structure TrackedItem where
  url : String
  nickname : Option String := none
  last_status : Option String := none
  last_title : Option String := none
  last_checked : Option ℚ := none
deriving DecidableEq, Repr

/-- The `BotConfig` dataclass (source lines 82-102).  `items` is a Python
dict keyed by URL, modelled as an insertion-ordered association list with
unique keys; the dataclass's `items=None` default coincides with the empty
dict here (every constructed config uses `items={}`). -/
structure BotConfig where
  interval_sec : Int := DEFAULT_INTERVAL_SEC
  alert_channel_id : Option Int := none
  items : List (String × TrackedItem) := []
deriving DecidableEq, Repr

/-- `asdict(item)` inside `BotConfig.to_dict` (source line 92). -/
def TrackedItem.asdict (it : TrackedItem) : JVal :=
  .obj [("url", .str it.url),
        ("nickname", match it.nickname with | some s => .str s | none => .null),
        ("last_status", match it.last_status with | some s => .str s | none => .null),
        ("last_title", match it.last_title with | some s => .str s | none => .null),
        ("last_checked", match it.last_checked with | some q => .num q | none => .null)]

/-- `BotConfig.to_dict` (source lines 88-93). -/
def BotConfig.to_dict (cfg : BotConfig) : JVal :=
  .obj [("interval_sec", .num (cfg.interval_sec : ℚ)),
        ("alert_channel_id", match cfg.alert_channel_id with | some n => .num (n : ℚ) | none => .null),
        ("items", .obj (cfg.items.map (fun p => (p.1, p.2.asdict))))]

/-- Python truthiness of a JSON value (`None`, `False`, `0`, `""`, `[]`,
`{}` are falsy). -/
def jTruthy : JVal → Bool
  | .null => false
  | .bool b => b
  | .num q => q != 0
  | .str s => s != ""
  | .arr xs => !xs.isEmpty
  | .obj fs => !fs.isEmpty

/-- Python's `int(x)` on the values `json.loads` can produce: truncation
toward zero on numbers, `True`/`False` to `1`/`0`, parse for strings;
anything else raises (`.error`). -/
def pyIntCoerce : JVal → Except Unit Int
  | .num q => .ok (q.num.sign * ((q.num.natAbs / q.den : Nat) : Int))
  | .bool b => .ok (if b then 1 else 0)
  | .str s => match s.toInt? with | some n => .ok n | none => .error ()
  | _ => .error ()

/-- Reading an `Optional[str]` dataclass field from JSON.  Values that
Python's dynamic typing would let through but that violate the declared
`Optional[str]` type are modelled as errors. -/
def optStrOfJ : JVal → Except Unit (Option String)
  | .null => .ok none
  | .str s => .ok (some s)
  | _ => .error ()

/-- Reading the `Optional[float]` field `last_checked` from JSON; same
typing convention as `optStrOfJ`. -/
def optNumOfJ : JVal → Except Unit (Option ℚ)
  | .null => .ok none
  | .num q => .ok (some q)
  | _ => .error ()

/-- The five field names of the `TrackedItem` dataclass. -/
def trackedItemKeys : List String :=
  ["url", "nickname", "last_status", "last_title", "last_checked"]

/-- `TrackedItem(**it)` inside `BotConfig.from_dict` (source line 97):
raises on a non-dict, on an unexpected key, and on a missing `url`;
absent optional fields default to `None`. -/
def item_from_dict : JVal → Except Unit TrackedItem
  | .obj fs =>
    if fs.all (fun p => trackedItemKeys.contains p.1) then
      match fs.lookup "url" with
      | some (.str u) =>
        match optStrOfJ ((fs.lookup "nickname").getD .null),
              optStrOfJ ((fs.lookup "last_status").getD .null),
              optStrOfJ ((fs.lookup "last_title").getD .null),
              optNumOfJ ((fs.lookup "last_checked").getD .null) with
        | .ok nick, .ok ls, .ok lt, .ok lc => .ok ⟨u, nick, ls, lt, lc⟩
        | _, _, _, _ => .error ()
      | _ => .error ()
    else .error ()
  | _ => .error ()

/-- The dict comprehension of `BotConfig.from_dict` (source line 97):
builds each item in order, raising on the first bad entry. -/
def items_from_dict : List (String × JVal) → Except Unit (List (String × TrackedItem))
  | [] => .ok []
  | (k, v) :: rest =>
    match item_from_dict v with
    | .error e => .error e
    | .ok it =>
      match items_from_dict rest with
      | .error e => .error e
      | .ok tl => .ok ((k, it) :: tl)

/-- `BotConfig.from_dict` (source lines 95-102).  `d.get("items") or {}`:
a falsy value is replaced by the empty dict; a truthy non-dict makes
`.items()` raise.  `interval_sec` goes through `int(...)` with default
`DEFAULT_INTERVAL_SEC`; `alert_channel_id` is passed through (its declared
type `Optional[int]` is enforced as in `optStrOfJ`). -/
def BotConfig.from_dict (j : JVal) : Except Unit BotConfig :=
  match j with
  | .obj fs =>
    let itemsRaw := (fs.lookup "items").getD .null
    match (if jTruthy itemsRaw then itemsRaw else .obj []) with
    | .obj ifs =>
      match items_from_dict ifs,
            pyIntCoerce ((fs.lookup "interval_sec").getD (.num (DEFAULT_INTERVAL_SEC : ℚ))) with
      | .ok items, .ok iv =>
        match (fs.lookup "alert_channel_id").getD .null with
        | .null => .ok ⟨iv, none, items⟩
        | .num q => if q.den = 1 then .ok ⟨iv, some q.num, items⟩ else .error ()
        | _ => .error ()
      | _, _ => .error ()
    | _ => .error ()
  | _ => .error ()

/-- The state of the durable file `stock_state.json`: missing, present but
unreadable (`open` raises), or present with content represented by its
`json.load` outcome (`none` when the content is malformed and parsing
raises; an empty or partially written file is malformed). -/
inductive FileState where
  | missing
  | unreadable
  | content (parse : Option JVal)

/-- `load_state` (source lines 106-114): default empty configuration on a
missing file, an unreadable file, malformed content, or a `from_dict`
failure (the `try` wraps both `json.load` and `from_dict`). -/
def load_state : FileState → BotConfig
  | .missing => { items := [] }
  | .unreadable => { items := [] }
  | .content none => { items := [] }
  | .content (some j) =>
    match BotConfig.from_dict j with
    | .ok c => c
    | .error _ => { items := [] }

/-- The file-system effects of `save_state` (source lines 117-120):
`open(STATE_FILE, "w")` truncates the file in place (an empty file is
malformed JSON), then `json.dump` writes the full serialization.  There is
no temporary file and no replace step. -/
inductive FsOp where
  | truncate
  | writeAll (doc : JVal)

/-- Effect of one file operation on the durable file. -/
def applyOp (_st : FileState) : FsOp → FileState
  | .truncate => .content none
  | .writeAll doc => .content (some doc)

/-- The operation sequence `save_state` performs (source lines 117-120). -/
def save_ops (cfg : BotConfig) : List FsOp := [.truncate, .writeAll cfg.to_dict]

/-- The durable file after the first `k` operations of `save_state`, i.e.
after a crash at that point (`k = 0`: before `open`; `k = 1`: after the
truncating `open`, before `json.dump`; `k = 2`: completed save). -/
def save_crash (st : FileState) (cfg : BotConfig) (k : Nat) : FileState :=
  ((save_ops cfg).take k).foldl applyOp st

/-- `save_state` run to completion. -/
def save_state (st : FileState) (cfg : BotConfig) : FileState :=
  (save_ops cfg).foldl applyOp st

/-- Assignment `cfg.items[url] = item` on the Python dict: update in place
when the key exists (insertion order preserved), append otherwise. -/
def dictInsert (m : List (String × TrackedItem)) (k : String) (v : TrackedItem) :
    List (String × TrackedItem) :=
  if (m.lookup k).isSome then
    m.map (fun p => if p.1 == k then (k, v) else p)
  else m ++ [(k, v)]

/-- `cfg.items.pop(key, None)` on the Python dict. -/
def dictPop (m : List (String × TrackedItem)) (k : String) :
    List (String × TrackedItem) :=
  m.filter (fun p => p.1 != k)

/-- `track_remove` (source lines 390-409) acting on the item dict:
remove by exact URL key first, else by the first case-insensitive nickname
match; the Bool records whether anything was removed. -/
def track_remove (items : List (String × TrackedItem)) (identifier : String) :
    List (String × TrackedItem) × Bool :=
  if (items.lookup identifier).isSome then
    (dictPop items identifier, true)
  else
    match items.find? (fun p =>
        match p.2.nickname with
        | some n => pyLower n == pyLower identifier
        | none => false) with
    | some p => (dictPop items p.1, true)
    | none => (items, false)

/-- The change decision of the sweep loop (source lines 306-310):
`changed = (status != item.last_status) and (item.last_status is not None)`,
then `if first_time and status == "InStock": changed = True`. -/
def changeDecision (last_status : Option String) (status : String) : Bool :=
  let changed := (some status != last_status) && (last_status != none)
  let first_time := last_status == none
  if first_time && (status == "InStock") then true else changed

/-- The unconditional per-item field update of the sweep loop (source
lines 312-314): `item.last_status = status`,
`item.last_title = title or item.last_title`,
`item.last_checked = time.time()`. -/
def sweepUpdateItem (item : TrackedItem) (status : String) (title : Option String)
    (now : ℚ) : TrackedItem :=
  { item with last_status := some status,
              last_title := pyOrStr title item.last_title,
              last_checked := some now }

/-- The alert event handed to `send_alert` (source lines 277 and 318):
`old` is the `old=` argument, `new` the `new=` argument. -/
structure Alert where
  url : String
  title : Option String
  old : Option String
  new : String
deriving DecidableEq, Repr

/-- Result of one item iteration of `monitor_loop`. -/
structure StepResult where
  cfg : BotConfig
  file : FileState
  alert : Option Alert

/-- One item iteration of the sweep in `monitor_loop` (source
lines 304-318), given the snapshot pair `(url, item)` and the `check_url`
outcome `checked`.  Note the source mutates `item.last_status` (line 312)
before reading it back as the `old=` argument (line 318), so the alert's
`old` field is built from the updated item. -/
def sweepItemStep (cfg : BotConfig) (file : FileState) (url : String)
    (item : TrackedItem) (checked : String × Option String) (now : ℚ) : StepResult :=
  let status := checked.1
  let changed := changeDecision item.last_status status
  let first_time := item.last_status == none
  let item := sweepUpdateItem item status checked.2 now
  let cfg := { cfg with items := dictInsert cfg.items url item }
  let file := save_state file cfg
  let alert :=
    if changed then
      some { url := url, title := item.last_title,
             old := if !first_time then item.last_status else none,
             new := status }
    else none
  { cfg := cfg, file := file, alert := alert }

/-- `send_alert` (source lines 277-294), by its delivery outcome.
`channelFound` models `bot.get_channel` returning a channel;
`transport` models the awaited `channel.send` (which line 287 does not
wrap in any exception handler).  A falsy `alert_channel_id` (`None` or
`0`) and an unresolved channel both return silently. -/
def send_alert (alert_channel_id : Option Int) (channelFound : Bool)
    (transport : Except String Unit) : Except String Unit :=
  if alert_channel_id = none ∨ alert_channel_id = some 0 then .ok ()
  else if !channelFound then .ok ()
  else transport

/-- One item iteration of the sweep including the notification call
(source lines 317-318): `if changed: await send_alert(...)` — an exception
escaping `send_alert` propagates out of the iteration (there is no `try`
in `monitor_loop`). -/
def sweepItemStepNotify (cfg : BotConfig) (file : FileState) (url : String)
    (item : TrackedItem) (checked : String × Option String) (now : ℚ)
    (channelFound : Bool) (transport : Except String Unit) :
    Except String StepResult :=
  let r := sweepItemStep cfg file url item checked now
  match r.alert with
  | some _ =>
    match send_alert r.cfg.alert_channel_id channelFound transport with
    | .error e => .error e
    | .ok _ => .ok r
  | none => .ok r

/-! Helper lemmas shared by the claim theorems. -/

theorem lookup_map_update (t : List (String × TrackedItem)) (k : String) (v : TrackedItem)
    (h : (t.lookup k).isSome) :
    (t.map (fun p => if p.1 == k then (k, v) else p)).lookup k = some v := by
  induction t with
  | nil => simp at h
  | cons p t ih =>
    obtain ⟨pk, pv⟩ := p
    by_cases hp : pk = k
    · subst hp
      simp [List.lookup_cons]
    · have hne : (k == pk) = false := beq_eq_false_iff_ne.mpr fun he => hp he.symm
      have hne2 : (pk == k) = false := beq_eq_false_iff_ne.mpr hp
      simp only [List.map_cons, hne2, Bool.false_eq_true, if_false, List.lookup_cons, hne]
      apply ih
      have h3 : k = pk ∨ ∃ x, (k, x) ∈ t := by simpa using h
      rcases h3 with h1 | h2
      · exact absurd h1 fun he => hp he.symm
      · simpa using h2

theorem lookup_dictInsert (m : List (String × TrackedItem)) (k : String) (v : TrackedItem) :
    (dictInsert m k v).lookup k = some v := by
  unfold dictInsert
  split
  · exact lookup_map_update m k v (by assumption)
  · have hnone : m.lookup k = none := by
      rename_i h
      cases hm : m.lookup k with
      | none => rfl
      | some w => rw [hm] at h; simp at h
    rw [List.lookup_append, hnone]
    simp

theorem pyIntCoerce_intCast (n : Int) : pyIntCoerce (.num (n : ℚ)) = .ok n := by
  simp only [pyIntCoerce, Rat.num_intCast, Rat.den_intCast, Nat.div_one]
  rw [Int.sign_mul_natAbs]

theorem item_from_dict_asdict (it : TrackedItem) : item_from_dict it.asdict = .ok it := by
  obtain ⟨u, nick, ls, lt, lc⟩ := it
  cases nick <;> cases ls <;> cases lt <;> cases lc <;> rfl

theorem items_from_dict_map (l : List (String × TrackedItem)) :
    items_from_dict (l.map (fun p => (p.1, p.2.asdict))) = .ok l := by
  induction l with
  | nil => rfl
  | cons hd tl ih =>
    obtain ⟨k, it⟩ := hd
    simp only [List.map_cons, items_from_dict, item_from_dict_asdict, ih]

theorem any_kw_iff (body : String) (words : List String) :
    any_kw body words = true ↔ ∃ w ∈ words, strContains body w = true := by
  simp [any_kw]

/-- The previously-good persisted document used for claim C3: a
configuration with one tracked item, serialized. -/
def c3PriorCfg : BotConfig :=
  ⟨120, some 7, [("u", ⟨"u", some "nick", some "InStock", some "Title", some 1⟩)]⟩

/-- The configuration whose save is interrupted in claim C3. -/
def c3NewCfg : BotConfig :=
  ⟨120, some 7, [("u", ⟨"u", some "nick", some "OutOfStock", some "Title", some 2⟩)]⟩

/-- First snapshot item of the claim C4 scenario. -/
def c4Item1 : TrackedItem := ⟨"u1", none, some "InStock", none, none⟩

/-- Second snapshot item of the claim C4 scenario, removed mid-sweep. -/
def c4Item2 : TrackedItem := ⟨"u2", none, some "InStock", none, none⟩

/-- Store at sweep start for the claim C4 scenario: two tracked items. -/
def c4Cfg0 : BotConfig := ⟨300, none, [("u1", c4Item1), ("u2", c4Item2)]⟩

/-- C4 scenario, step 1: the sweep processes the first snapshot pair. -/
def c4Sweep1 : StepResult := sweepItemStep c4Cfg0 .missing "u1" c4Item1 ("InStock", none) 1

/-- C4 scenario, step 2: the control plane removes `"u2"` mid-sweep. -/
def c4Removed : List (String × TrackedItem) := (track_remove c4Sweep1.cfg.items "u2").1

/-- C4 scenario, step 3: the turn of the already-removed snapshot pair
`("u2", c4Item2)` arrives and the sweep processes it anyway. -/
def c4Sweep2 : StepResult :=
  sweepItemStep { c4Sweep1.cfg with items := c4Removed } c4Sweep1.file "u2" c4Item2
    ("InStock", none) 2

/-! Claim theorems. -/

/-- C1: the claim says an alert carries the item's stored previous status and
the newly observed status, and that these differ.  The code overwrites
`item.last_status` with the new status (source line 312) before reading it
back as the `old=` argument of `send_alert` (source line 318), so with stored
`"InStock"` and observed `"OutOfStock"` the emitted alert carries
`old = "OutOfStock"`, equal to `new` and different from the stored previous
status — the code contradicts its own `old=` parameter and its rendered
`old → new` transition message. -/
theorem c1_alert_carries_new_status_as_old :
    (sweepItemStep ⟨300, some 1, [("u", ⟨"u", none, some "InStock", none, none⟩)]⟩
        (.content none) "u" ⟨"u", none, some "InStock", none, none⟩
        ("OutOfStock", none) 5).alert =
      some ⟨"u", none, some "OutOfStock", "OutOfStock"⟩ := rfl

/-- C9: `load_state` returns the default empty configuration (default
interval, no alert channel, no items) on a missing file, on an unreadable
file, and on malformed content; being a total function of the file state,
it never fails the caller. -/
theorem c9_load_never_fails :
    load_state .missing = ⟨DEFAULT_INTERVAL_SEC, none, []⟩
    ∧ load_state .unreadable = ⟨DEFAULT_INTERVAL_SEC, none, []⟩
    ∧ load_state (.content none) = ⟨DEFAULT_INTERVAL_SEC, none, []⟩ :=
  ⟨rfl, rfl, rfl⟩

/-- C3 counterexample: the claim says a crash at any point during save leaves
the previously-good file intact and loadable.  The file holds the loadable
serialization of `c3PriorCfg`; a crash during `save_state c3NewCfg` right
after the truncating `open` (crash point 1) leaves the file malformed, and a
reload yields the default empty configuration — the previously-good state is
destroyed. -/
theorem c3_counterexample :
    load_state (.content (some c3PriorCfg.to_dict)) = c3PriorCfg
    ∧ save_crash (.content (some c3PriorCfg.to_dict)) c3NewCfg 1 = .content none
    ∧ load_state (save_crash (.content (some c3PriorCfg.to_dict)) c3NewCfg 1) =
        ⟨DEFAULT_INTERVAL_SEC, none, []⟩ := by
  refine ⟨by decide, rfl, rfl⟩

/-- C3 (amended): `save_state` rewrites the state file in place, not via a
temporary file plus replace: a crash before any file operation leaves the old
state, a crash after the truncating `open` but before `json.dump` completes
leaves a malformed file that loads as the default empty configuration, and
only the completed save holds the new serialization. -/
theorem c3_save_rewrites_in_place (st : FileState) (cfg : BotConfig) :
    save_crash st cfg 0 = st
    ∧ save_crash st cfg 1 = .content none
    ∧ load_state (save_crash st cfg 1) = ⟨DEFAULT_INTERVAL_SEC, none, []⟩
    ∧ save_crash st cfg 2 = .content (some cfg.to_dict)
    ∧ save_state st cfg = .content (some cfg.to_dict) :=
  ⟨rfl, rfl, rfl, rfl, rfl⟩

/-- C4 counterexample: the claim says an item removed after the sweep's
snapshot is neither checked nor written back, remaining absent.  In the
scenario `c4Cfg0` → sweep processes `"u1"` → `"u2"` is removed (its lookup
is `none`) → the snapshot turn of `"u2"` arrives: the step writes the
updated `"u2"` item back, so it is present in the store again. -/
theorem c4_counterexample :
    c4Removed.lookup "u2" = none
    ∧ c4Sweep2.cfg.items.lookup "u2" = some (sweepUpdateItem c4Item2 "InStock" none 2) :=
  ⟨rfl, rfl⟩

/-- C4 (amended): the sweep-item step writes the updated snapshot item back
into the store unconditionally (source line 315 assigns `cfg.items[url]`
without checking membership), so an item removed mid-sweep is re-added with
its freshly checked fields when its snapshot turn arrives, rather than
skipped. -/
theorem c4_step_writes_back_unconditionally (cfg : BotConfig) (file : FileState)
    (url : String) (item : TrackedItem) (checked : String × Option String) (now : ℚ) :
    (sweepItemStep cfg file url item checked now).cfg.items.lookup url =
      some (sweepUpdateItem item checked.1 checked.2 now) :=
  lookup_dictInsert cfg.items url (sweepUpdateItem item checked.1 checked.2 now)

/-- C2: the change decision alerts exactly when either this is the item's
first completed observation (`last_status` is the never-observed sentinel
`none`) and the new status is `"InStock"`, or a prior status is on record
and the new status differs from it (any transition, including into
`"Unknown"`); and in the first-observation case the emitted alert reports
the absent sentinel (`none`) as the previous value. -/
theorem c2_change_decision_rule (prev : Option String) (nw : String) (cfg : BotConfig)
    (file : FileState) (url : String) (item : TrackedItem) (title : Option String)
    (now : ℚ) :
    (changeDecision prev nw = true ↔
      ((prev = none ∧ nw = "InStock") ∨ ∃ p, prev = some p ∧ nw ≠ p))
    ∧ (item.last_status = none →
        (sweepItemStep cfg file url item (nw, title) now).alert =
          (if nw = "InStock"
           then some ⟨url, pyOrStr title item.last_title, none, nw⟩
           else none)) := by
  constructor
  · cases prev with
    | none => by_cases h : nw = "InStock" <;> simp [changeDecision, h]
    | some p => by_cases h : nw = p <;> simp [changeDecision, h]
  · intro h
    by_cases hin : nw = "InStock" <;>
      simp [sweepItemStep, changeDecision, sweepUpdateItem, h, hin]

/-- C2 witness: a concrete first observation (`last_status = none`) with new
status `"InStock"` alerts with the absent sentinel as previous value. -/
theorem c2_change_decision_rule_witness :
    (sweepItemStep ⟨300, none, []⟩ .missing "u" ⟨"u", none, none, none, none⟩
        ("InStock", none) 0).alert = some ⟨"u", none, none, "InStock"⟩ := by
  have h := (c2_change_decision_rule none "InStock" ⟨300, none, []⟩ .missing "u"
    ⟨"u", none, none, none, none⟩ none 0).2 rfl
  simpa [pyOrStr] using h

/-- C5 counterexample: with an alert channel configured (`some 1`) and
resolvable, a stored `"InStock"`, an observed `"OutOfStock"` (so the alert
fires) and a failing `channel.send`, the per-item step propagates the send
error into the sweep loop instead of swallowing it. -/
theorem c5_counterexample :
    sweepItemStepNotify ⟨300, some 1, []⟩ .missing "u"
        ⟨"u", none, some "InStock", none, none⟩ ("OutOfStock", none) 5 true
        (.error "send failed") = .error "send failed" := rfl

/-- C5 (amended): a failure of the underlying `channel.send` propagates out
of the notification step into the sweep loop (there is no exception handler
around the send): the per-item step errors exactly when the change decision
fired, the configured alert channel id is truthy, the channel resolves, and
the transport send fails; in every other case (no alert, falsy channel id,
unresolved channel, or successful send) the step completes. -/
theorem c5_send_failure_propagates (cfg : BotConfig) (file : FileState) (url : String)
    (item : TrackedItem) (checked : String × Option String) (now : ℚ)
    (channelFound : Bool) (transport : Except String Unit) (e : String) :
    sweepItemStepNotify cfg file url item checked now channelFound transport = .error e ↔
      ((sweepItemStep cfg file url item checked now).alert ≠ none
       ∧ ¬(cfg.alert_channel_id = none ∨ cfg.alert_channel_id = some 0)
       ∧ channelFound = true
       ∧ transport = .error e) := by
  unfold sweepItemStepNotify
  have hac : (sweepItemStep cfg file url item checked now).cfg.alert_channel_id =
      cfg.alert_channel_id := rfl
  cases halert : (sweepItemStep cfg file url item checked now).alert with
  | none => simp [halert]
  | some a =>
    simp only [halert]
    rw [hac]
    unfold send_alert
    by_cases hc : cfg.alert_channel_id = none ∨ cfg.alert_channel_id = some 0
    · simp [hc]
    · cases channelFound with
      | false => simp [hc]
      | true =>
        cases transport with
        | ok _ => simp [hc]
        | error e2 => simp [hc]

/-- C5 witness: the amended rule instantiated at a firing alert, a truthy
configured channel, a resolved channel and a failing send. -/
theorem c5_send_failure_propagates_witness :
    sweepItemStepNotify ⟨300, some 1, []⟩ .missing "u"
        ⟨"u", none, some "InStock", none, none⟩ ("Unknown", none) 5 true
        (.error "boom") = .error "boom" := by
  exact (c5_send_failure_propagates ⟨300, some 1, []⟩ .missing "u"
    ⟨"u", none, some "InStock", none, none⟩ ("Unknown", none) 5 true
    (.error "boom") "boom").mpr ⟨by decide, by decide, rfl, rfl⟩

/-- C6 counterexample: the claim says a found availability token that matches
no keyword yields `"Unknown"` with the captured name still usable.  For a
block whose raw text matches the availability pattern with token
`"Discontinued"` but whose JSON is malformed (e.g. content
`{"name": "Widget", "availability": "Discontinued"` with a missing brace),
the fast path falls through, the JSON parse fails, and the block is skipped
entirely: extraction yields no status and no name, not `"Unknown"`. -/
theorem c6_counterexample :
    parse_jsonld_availability [⟨some "Discontinued", some "Widget", none⟩] = (none, none)
    ∧ parse_jsonld_availability [⟨some "Discontinued", some "Widget", none⟩] ≠
        (some "Unknown", some "Widget") := by
  refine ⟨rfl, by decide⟩

/-- C6 (amended): the availability token is normalized case-insensitively
with priority instock, outofstock, preorder/pre-order, and the first block
yielding a status fixes the result whatever the later blocks hold; a token
found via JSON parsing that matches none of the keywords yields `"Unknown"`
with the JSON-captured name usable; but a token captured only by the
raw-text pattern that matches none of the keywords does not yield
`"Unknown"`: its block falls through to JSON parsing and, when that fails,
is skipped with no status and no name. -/
theorem c6_token_normalization (rest : List LdBlock) (nameM : Option String)
    (raw : String) (parsed : Option JVal) :
    (strContains (pyLower raw) "instock" = true →
      parse_jsonld_availability (⟨some raw, nameM, parsed⟩ :: rest) = (some "InStock", nameM))
    ∧ (strContains (pyLower raw) "instock" = false →
       strContains (pyLower raw) "outofstock" = true →
      parse_jsonld_availability (⟨some raw, nameM, parsed⟩ :: rest) = (some "OutOfStock", nameM))
    ∧ (strContains (pyLower raw) "instock" = false →
       strContains (pyLower raw) "outofstock" = false →
       (strContains (pyLower raw) "preorder" || strContains (pyLower raw) "pre-order") = true →
      parse_jsonld_availability (⟨some raw, nameM, parsed⟩ :: rest) = (some "PreOrder", nameM))
    ∧ (normalize_avail raw = none →
      parse_jsonld_availability (⟨some raw, nameM, none⟩ :: rest) =
        parse_jsonld_availability rest)
    ∧ (∀ (j : JVal) (raw2 : String) (nm : Option String),
        extract j = some (raw2, nm) → normalize_avail raw2 = none →
        parse_jsonld_availability (⟨none, nameM, some j⟩ :: rest) = (some "Unknown", nm)) := by
  refine ⟨?_, ?_, ?_, ?_, ?_⟩
  · intro h1
    simp [parse_jsonld_availability, procBlock, normalize_avail, h1]
  · intro h1 h2
    simp [parse_jsonld_availability, procBlock, normalize_avail, h1, h2]
  · intro h1 h2 h3
    simp [parse_jsonld_availability, procBlock, normalize_avail, h1, h2, h3]
  · intro h
    simp [parse_jsonld_availability, procBlock, h]
  · intro j raw2 nm hx hn
    simp [parse_jsonld_availability, procBlock, hx, hn]

/-- C6 witness: a schema.org in-stock token is normalized via the fast path
regardless of a trailing block, and a JSON-found unmatched token yields
`"Unknown"` with the JSON-captured name. -/
theorem c6_token_normalization_witness :
    parse_jsonld_availability
        [⟨some "https://schema.org/InStock", some "N", none⟩, ⟨some "outofstock", none, none⟩] =
      (some "InStock", some "N")
    ∧ parse_jsonld_availability
        [⟨none, none, some (.obj [("name", .str "P"),
            ("offers", .obj [("availability", .str "Limited")])])⟩] =
      (some "Unknown", some "P") := by
  constructor
  · exact (c6_token_normalization [⟨some "outofstock", none, none⟩] (some "N")
      "https://schema.org/InStock" none).1 (by decide)
  · exact (c6_token_normalization [] none "" none).2.2.2.2
      (.obj [("name", .str "P"), ("offers", .obj [("availability", .str "Limited")])])
      "Limited" (some "P") rfl (by decide)

/-- C7: whenever the keyword fallback stage runs (structured data yielded no
status or `"Unknown"`), the resulting status is determined by testing the
lowercased visible text against the three phrase sets in priority order —
in-stock first, then out-of-stock, then pre-order, first matching set wins,
no match yields `"Unknown"` (so a page containing both an in-stock and an
out-of-stock phrase yields `"InStock"`). -/
theorem c7_keyword_priority (pg : Page)
    (h : (parse_jsonld_availability pg.blocks).1 = none ∨
         (parse_jsonld_availability pg.blocks).1 = some "Unknown") :
    (check_url (some pg)).1 =
      (if ∃ w ∈ IN_STOCK_KEYWORDS, strContains (pyLower pg.visibleText) w = true then "InStock"
       else if ∃ w ∈ OUT_STOCK_KEYWORDS, strContains (pyLower pg.visibleText) w = true then
         "OutOfStock"
       else if ∃ w ∈ PREORDER_KEYWORDS, strContains (pyLower pg.visibleText) w = true then
         "PreOrder"
       else "Unknown") := by
  have hfb : (check_url (some pg)).1 = keyword_status_fallback pg.visibleText := by
    rcases h with h | h <;> simp [check_url, h]
  rw [hfb]
  unfold keyword_status_fallback
  rcases hin : any_kw (pyLower pg.visibleText) IN_STOCK_KEYWORDS with _ | _ <;>
    rcases hout : any_kw (pyLower pg.visibleText) OUT_STOCK_KEYWORDS with _ | _ <;>
      rcases hpre : any_kw (pyLower pg.visibleText) PREORDER_KEYWORDS with _ | _ <;>
        simp_all [any_kw_iff, any_kw]

/-- C7 witness: on a page without structured data whose text contains both
the out-of-stock phrase "niet op voorraad" and the in-stock phrase
"op voorraad", extraction yields `"InStock"`. -/
theorem c7_keyword_priority_witness :
    (check_url (some ⟨[], "Niet op voorraad, maar morgen Op Voorraad", none⟩)).1 =
      "InStock" := by
  have h := c7_keyword_priority ⟨[], "Niet op voorraad, maar morgen Op Voorraad", none⟩
    (Or.inl rfl)
  rw [h]
  decide

/-- C8: serializing any configuration (`to_dict`, as written by `save_state`)
and reading it back (`from_dict`, as done by `load_state`) reproduces the
configuration exactly: every setting and every item field round-trips. -/
theorem c8_round_trip (cfg : BotConfig) : BotConfig.from_dict cfg.to_dict = .ok cfg := by
  obtain ⟨iv, ac, items⟩ := cfg
  have hitems : (if jTruthy (.obj (items.map (fun p => (p.1, p.2.asdict)))) then
      JVal.obj (items.map (fun p => (p.1, p.2.asdict))) else .obj []) =
      .obj (items.map (fun p => (p.1, p.2.asdict))) := by
    cases items <;> rfl
  cases ac with
  | none =>
    simp [BotConfig.to_dict, BotConfig.from_dict, List.lookup, hitems,
      items_from_dict_map, pyIntCoerce_intCast]
  | some n =>
    simp [BotConfig.to_dict, BotConfig.from_dict, List.lookup, hitems,
      items_from_dict_map, pyIntCoerce_intCast, Rat.den_intCast, Rat.num_intCast]

/-- C10: a check that yields no display name (in particular a failed fetch,
where `check_url` returns `("Unknown", none)`) leaves the stored item's
`last_title` unchanged, and once `last_title` is non-absent no sweep update
can make it absent again; the updated item is what the step stores. -/
theorem c10_title_retention (cfg : BotConfig) (file : FileState) (url : String)
    (item : TrackedItem) (status : String) (title : Option String) (now : ℚ) :
    check_url none = ("Unknown", none)
    ∧ (sweepUpdateItem item status none now).last_title = item.last_title
    ∧ (item.last_title ≠ none → (sweepUpdateItem item status title now).last_title ≠ none)
    ∧ (sweepItemStep cfg file url item (status, title) now).cfg.items.lookup url =
        some (sweepUpdateItem item status title now) := by
  refine ⟨rfl, rfl, ?_, lookup_dictInsert cfg.items url (sweepUpdateItem item status title now)⟩
  intro h
  cases title with
  | none => simpa [sweepUpdateItem, pyOrStr] using h
  | some s =>
    by_cases hs : s = "" <;> simp [sweepUpdateItem, pyOrStr, hs, h]

/-- C10 witness: an item with a recorded title checked with no new title
keeps a non-absent `last_title`. -/
theorem c10_title_retention_witness :
    (sweepUpdateItem ⟨"u", none, none, some "T", none⟩ "Unknown" none 9).last_title ≠
      none := by
  exact (c10_title_retention ⟨300, none, []⟩ .missing "u" ⟨"u", none, none, some "T", none⟩
    "Unknown" none 9).2.2.1 (by decide)

end StockBot
